import Mathlib

/-!
Verification of the sandwich-bot opportunity pipeline.

The Python source is embedded shallowly:
* Python `int`/`float` arithmetic is modelled over `ℚ` (exact arithmetic);
  `int(x)` is truncation toward zero (`pyInt`), integer `//` is the
  mathematical floor of the rational quotient, and `abs` is `pyAbs`.
* A Python function that can raise `ZeroDivisionError` is modelled as an
  `Option`-returning function, `none` standing for the raised exception.
* Sources of hidden state (the wall clock, `random.random()`) become explicit
  arguments, so that each function is a mathematical function of all its real
  inputs.
-/

namespace SandwichBot

/-- Python `int(x)` applied to a real quantity: truncation toward zero. -/
def pyInt (q : ℚ) : ℤ := if 0 ≤ q then ⌊q⌋ else ⌈q⌉

/-- Python `abs(x)`. -/
def pyAbs (q : ℚ) : ℚ := if 0 ≤ q then q else -q

theorem pyAbs_eq_abs (q : ℚ) : pyAbs q = |q| := by
  unfold pyAbs
  split
  · exact (abs_of_nonneg (by assumption)).symm
  · exact (abs_of_neg (by linarith [lt_of_not_le (by assumption : ¬ (0:ℚ) ≤ q)])).symm

theorem pyInt_eq_floor {q : ℚ} (h : 0 ≤ q) : pyInt q = ⌊q⌋ := by
  unfold pyInt
  exact if_pos h

/-- Embedding of `TransactionBuilder.calculate_swap_amounts` from
`src/core/transaction_builder.py`:

```
amount_in_after_fee = int(amount_in * (1 - fee_rate))
amount_out = (pool_liquidity_out * amount_in_after_fee) // (pool_liquidity_in + amount_in_after_fee)
price_before = pool_liquidity_out / pool_liquidity_in
price_after = (pool_liquidity_out - amount_out) / (pool_liquidity_in + amount_in)
price_impact = abs(price_after - price_before) / price_before
return amount_out, price_impact
```

`none` models a `ZeroDivisionError` raised by one of the four divisions,
checked in source order. -/
def calculate_swap_amounts (pool_liquidity_in pool_liquidity_out amount_in : ℤ)
    (fee_rate : ℚ) : Option (ℤ × ℚ) :=
  let amount_in_after_fee : ℤ := pyInt ((amount_in : ℚ) * (1 - fee_rate))
  if pool_liquidity_in + amount_in_after_fee = 0 then none
  else
    let amount_out : ℤ :=
      ⌊((pool_liquidity_out * amount_in_after_fee : ℤ) : ℚ) /
        ((pool_liquidity_in + amount_in_after_fee : ℤ) : ℚ)⌋
    if pool_liquidity_in = 0 then none
    else
      let price_before : ℚ := (pool_liquidity_out : ℚ) / (pool_liquidity_in : ℚ)
      if pool_liquidity_in + amount_in = 0 then none
      else
        let price_after : ℚ :=
          ((pool_liquidity_out - amount_out : ℤ) : ℚ) / ((pool_liquidity_in + amount_in : ℤ) : ℚ)
        if price_before = 0 then none
        else some (amount_out, pyAbs (price_after - price_before) / price_before)

/-- The output amount exactly as claimed by the spec for 4.1, with the fee
applied as `effectiveIn = amountIn × (1 − feeRate)` kept exact (NOT truncated
to an integer) and only the final constant-product value rounded down. -/
def specClaimedAmountOut (reserveIn reserveOut amountIn : ℤ) (feeRate : ℚ) : ℤ :=
  let effectiveIn : ℚ := (amountIn : ℚ) * (1 - feeRate)
  ⌊(reserveOut : ℚ) * effectiveIn / ((reserveIn : ℚ) + effectiveIn)⌋

/-- The quote of 4.1 as amended: `effectiveIn` is truncated to an integer
(the code's `int(...)`) before the constant-product rule is applied; the
price-impact formula is as the spec states it, with the post-trade price
read off the projected reserves `(reserveIn + amountIn, reserveOut − amountOut)`. -/
def specQuoteTruncated (reserveIn reserveOut amountIn : ℤ) (feeRate : ℚ) : ℤ × ℚ :=
  let effectiveIn : ℤ := pyInt ((amountIn : ℚ) * (1 - feeRate))
  let amountOut : ℤ := ⌊(reserveOut : ℚ) * (effectiveIn : ℚ) / ((reserveIn : ℚ) + (effectiveIn : ℚ))⌋
  let priceBefore : ℚ := (reserveOut : ℚ) / (reserveIn : ℚ)
  let priceAfter : ℚ := ((reserveOut : ℚ) - (amountOut : ℚ)) / ((reserveIn : ℚ) + (amountIn : ℚ))
  (amountOut, |priceAfter - priceBefore| / priceBefore)

section QuoteLemmas

variable {rIn rOut aIn : ℤ} {fee : ℚ}

theorem afterFee_nonneg (ha : 0 ≤ aIn) (hf1 : fee < 1) :
    0 ≤ pyInt ((aIn : ℚ) * (1 - fee)) := by
  have ha' : (0:ℚ) ≤ (aIn : ℚ) := by exact_mod_cast ha
  have h : (0:ℚ) ≤ (aIn : ℚ) * (1 - fee) := mul_nonneg ha' (by linarith)
  rw [pyInt_eq_floor h]
  exact Int.floor_nonneg.mpr h

/-- Full evaluation of `calculate_swap_amounts` on well-formed inputs: no
division by zero is reached and the returned pair is the (amended) spec
quote. -/
theorem calculate_swap_amounts_eq (hIn : 0 < rIn) (hOut : 0 < rOut)
    (ha : 0 ≤ aIn) (hf1 : fee < 1) :
    calculate_swap_amounts rIn rOut aIn fee = some (specQuoteTruncated rIn rOut aIn fee) := by
  have haf : 0 ≤ pyInt ((aIn : ℚ) * (1 - fee)) := afterFee_nonneg ha hf1
  have h1 : rIn + pyInt ((aIn : ℚ) * (1 - fee)) ≠ 0 := by omega
  have h2 : rIn ≠ 0 := by omega
  have h3 : rIn + aIn ≠ 0 := by omega
  have h4 : (rOut : ℚ) / (rIn : ℚ) ≠ 0 := by
    apply div_ne_zero <;> [skip; skip] <;> exact_mod_cast (by omega : _)
  unfold calculate_swap_amounts specQuoteTruncated
  rw [if_neg h1, if_neg h2, if_neg h3, if_neg h4]
  rw [pyAbs_eq_abs]
  congr 2 <;> push_cast <;> ring_nf

/-- The computed output is strictly below the output-side reserve. -/
theorem amountOut_lt (hIn : 0 < rIn) (hOut : 0 < rOut) (ha : 0 ≤ aIn) (hf1 : fee < 1) :
    (specQuoteTruncated rIn rOut aIn fee).1 < rOut := by
  have haf : 0 ≤ pyInt ((aIn : ℚ) * (1 - fee)) := afterFee_nonneg ha hf1
  unfold specQuoteTruncated
  rw [Int.floor_lt]
  have hd : (0 : ℚ) < (rIn : ℚ) + (pyInt ((aIn : ℚ) * (1 - fee)) : ℚ) := by
    have : (0 : ℚ) < (rIn : ℚ) := by exact_mod_cast hIn
    have : (0 : ℚ) ≤ (pyInt ((aIn : ℚ) * (1 - fee)) : ℚ) := by exact_mod_cast haf
    linarith
  rw [div_lt_iff hd]
  have hrOut : (0 : ℚ) < (rOut : ℚ) := by exact_mod_cast hOut
  have hrIn : (0 : ℚ) < (rIn : ℚ) := by exact_mod_cast hIn
  nlinarith [hd, hrOut, hrIn]

/-- The computed price impact is non-negative. -/
theorem priceImpact_nonneg (hIn : 0 < rIn) (hOut : 0 < rOut) :
    0 ≤ (specQuoteTruncated rIn rOut aIn fee).2 := by
  unfold specQuoteTruncated
  have hrOut : (0 : ℚ) < (rOut : ℚ) := by exact_mod_cast hOut
  have hrIn : (0 : ℚ) < (rIn : ℚ) := by exact_mod_cast hIn
  positivity

end QuoteLemmas

/-- C8. Pricing invariant: for every valid input (`reserveIn > 0`,
`reserveOut > 0`, `amountIn > 0`, `feeRate ∈ [0,1)`), the quote succeeds and
returns `amountOut < reserveOut` and `priceImpact ≥ 0`. -/
theorem claim_C8_pricing_invariant (rIn rOut aIn : ℤ) (fee : ℚ)
    (hIn : 0 < rIn) (hOut : 0 < rOut) (ha : 0 < aIn) (hf0 : 0 ≤ fee) (hf1 : fee < 1) :
    ∃ amountOut priceImpact, calculate_swap_amounts rIn rOut aIn fee = some (amountOut, priceImpact)
      ∧ amountOut < rOut ∧ 0 ≤ priceImpact := by
  refine ⟨(specQuoteTruncated rIn rOut aIn fee).1, (specQuoteTruncated rIn rOut aIn fee).2,
    ?_, amountOut_lt hIn hOut ha.le hf1, priceImpact_nonneg hIn hOut⟩
  rw [calculate_swap_amounts_eq hIn hOut ha.le hf1]

theorem claim_C8_pricing_invariant_witness :
    (0:ℤ) < 1000 ∧ (0:ℤ) < 1000000 ∧ (0:ℤ) < 50 ∧ (0:ℚ) ≤ 1/400 ∧ (1:ℚ)/400 < 1 ∧
    ∃ amountOut priceImpact,
      calculate_swap_amounts 1000 1000000 50 (1/400) = some (amountOut, priceImpact)
        ∧ amountOut < 1000000 ∧ 0 ≤ priceImpact :=
  ⟨by norm_num, by norm_num, by norm_num, by norm_num, by norm_num,
    claim_C8_pricing_invariant 1000 1000000 50 (1/400)
      (by norm_num) (by norm_num) (by norm_num) (by norm_num) (by norm_num)⟩

/-- C2 fails as stated: at `(reserveIn, reserveOut, amountIn, feeRate) =
(1, 10, 2, 1/4)` the code truncates `effectiveIn = 1.5` to `1` and returns
`amountOut = 5`, while the claim's exact-fee formula gives
`⌊10 × 1.5 / 2.5⌋ = 6`. -/
theorem claim_C2_counterexample :
    (calculate_swap_amounts 1 10 2 (1/4)).map Prod.fst
      ≠ some (specClaimedAmountOut 1 10 2 (1/4)) := by
  have h1 : (calculate_swap_amounts 1 10 2 (1/4)).map Prod.fst = some 5 := by
    simp only [calculate_swap_amounts, pyInt, pyAbs]
    norm_num
  have h2 : specClaimedAmountOut 1 10 2 (1/4) = 6 := by
    simp only [specClaimedAmountOut]
    norm_num
  rw [h1, h2]
  simp

/-- C2 as amended: the fee is applied first and the result truncated to an
integer, `effectiveIn = int(amountIn × (1 − feeRate))`; the quote then
returns `amountOut = ⌊reserveOut × effectiveIn / (reserveIn + effectiveIn)⌋`
and `priceImpact = |priceAfter − priceBefore| / priceBefore` with
`priceBefore = reserveOut / reserveIn` and
`priceAfter = (reserveOut − amountOut) / (reserveIn + amountIn)`; the
output-side reserve must be positive for the quote to return. -/
theorem claim_C2_quote_formula (rIn rOut aIn : ℤ) (fee : ℚ)
    (hIn : 0 < rIn) (hOut : 0 < rOut) (ha : 0 ≤ aIn) (hf1 : fee < 1) :
    calculate_swap_amounts rIn rOut aIn fee = some (specQuoteTruncated rIn rOut aIn fee) :=
  calculate_swap_amounts_eq hIn hOut ha hf1

theorem claim_C2_quote_formula_witness :
    (0:ℤ) < 1 ∧ (0:ℤ) < 10 ∧ (0:ℤ) ≤ 2 ∧ (1:ℚ)/4 < 1 ∧
    calculate_swap_amounts 1 10 2 (1/4) = some (specQuoteTruncated 1 10 2 (1/4)) :=
  ⟨by norm_num, by norm_num, by norm_num, by norm_num,
    claim_C2_quote_formula 1 10 2 (1/4) (by norm_num) (by norm_num) (by norm_num) (by norm_num)⟩

/-- C6 fails as stated: the code performs no input validation at all. At
`amountIn = 0` (which the claim says must fail with `InvalidInput`) the quote
returns normally. -/
theorem claim_C6_counterexample :
    (calculate_swap_amounts 1 10 0 (1/4)).isSome = true := by
  simp only [calculate_swap_amounts, pyInt, pyAbs]
  norm_num

/-- C6 as amended: `calculate_swap_amounts` never signals `InvalidInput`;
it fails (raises `ZeroDivisionError`) exactly when one of its four divisors
vanishes — `reserveIn + effectiveIn = 0`, `reserveIn = 0`,
`reserveIn + amountIn = 0`, or `priceBefore = 0` — and returns a quote for
every other input, including every `amountIn ≤ 0` that avoids those
divisors. -/
theorem claim_C6_failure_characterization (rIn rOut aIn : ℤ) (fee : ℚ) :
    calculate_swap_amounts rIn rOut aIn fee = none ↔
      (rIn + pyInt ((aIn : ℚ) * (1 - fee)) = 0 ∨ rIn = 0 ∨ rIn + aIn = 0
        ∨ (rOut : ℚ) / (rIn : ℚ) = 0) := by
  unfold calculate_swap_amounts
  by_cases h1 : rIn + pyInt ((aIn : ℚ) * (1 - fee)) = 0
  · simp [h1]
  by_cases h2 : rIn = 0
  · simp [h1, h2]
  by_cases h3 : rIn + aIn = 0
  · simp [h1, h2, h3]
  by_cases h4 : (rOut : ℚ) / (rIn : ℚ) = 0
  · simp [h1, h2, h3, h4]
  · simp [h1, h2, h3, h4]

/-! ## Transaction builder: the sandwich bracket (`build_sandwich_transactions`) -/

/-- Python `//` on integers: floor division (divisor nonzero at all call
sites below). -/
def pyFloorDiv (a b : ℤ) : ℤ := ⌊(a : ℚ) / (b : ℚ)⌋

/-- The data of one swap leg as handed to `build_raydium_swap`: input amount,
minimum acceptable output, and whether the token direction is reversed
(back-run legs swap `token_in`/`token_out`). -/
structure SwapInstr where
  amountIn : ℤ
  minimumAmountOut : ℤ
  reverseDirection : Bool
deriving Repr, DecidableEq

/-- Result of `build_sandwich_transactions`: either the `(None, None, 0.0)`
rejection or the two signed legs plus the computed profit percentage. -/
inductive BuildOutcome where
  | rejected
  | built (frontRun backRun : SwapInstr) (profitPercentage : ℚ)
deriving Repr, DecidableEq

/-- Embedding of `TransactionBuilder.build_sandwich_transactions` from
`src/core/transaction_builder.py` (the algebraic simulation and the
build/reject decision; the solders transaction assembly is abstracted into
`SwapInstr`). The fee rate is the function's default `0.0025 = 1/400` in
both legs and the target projection. `none` models a propagated
`ZeroDivisionError` from `calculate_swap_amounts`. -/
def build_sandwich_transactions (pool_liquidity_in pool_liquidity_out target_amount_in : ℤ) :
    Option BuildOutcome :=
  let front_run_amount := min (pyFloorDiv target_amount_in 4) (pyFloorDiv pool_liquidity_in 100)
  match calculate_swap_amounts pool_liquidity_in pool_liquidity_out front_run_amount (1/400) with
  | none => none
  | some (front_run_output, _) =>
    let new_liquidity_in := pool_liquidity_in + front_run_amount
    let new_liquidity_out := pool_liquidity_out - front_run_output
    match calculate_swap_amounts new_liquidity_in new_liquidity_out target_amount_in (1/400) with
    | none => none
    | some (target_output, _) =>
      let final_liquidity_in := new_liquidity_in + target_amount_in
      let final_liquidity_out := new_liquidity_out - target_output
      let back_run_amount := front_run_output
      match calculate_swap_amounts final_liquidity_out final_liquidity_in back_run_amount (1/400) with
      | none => none
      | some (back_run_output, _) =>
        let profit := back_run_output - front_run_amount
        let profit_percentage : ℚ :=
          if 0 < front_run_amount then (profit : ℚ) / (front_run_amount : ℚ) else 0
        if profit_percentage < 1/100 then some .rejected
        else some (.built
          ⟨front_run_amount, pyInt ((front_run_output : ℚ) * (98/100)), false⟩
          ⟨back_run_amount, pyInt ((back_run_output : ℚ) * (98/100)), true⟩
          profit_percentage)

/-- One application of the 4.1 pricing model as the spec's bracket
simulation uses it: the swap's output together with the updated reserve pair
`(reserveIn + amountIn, reserveOut − amountOut)`. -/
def swapStep (reserveIn reserveOut amountIn : ℤ) (fee : ℚ) : Option (ℤ × ℤ × ℤ) :=
  (calculate_swap_amounts reserveIn reserveOut amountIn fee).map
    (fun q => (q.1, reserveIn + amountIn, reserveOut - q.1))

/-- The spec's three chained steps: apply the front-run to the original
reserves, apply the target trade to the once-updated reserves, then apply a
back-run sized as exactly the front-run's acquired output to the
twice-updated reserves in the reverse direction. Returns the front-run and
back-run outputs. -/
def chainedBracket (reserveIn reserveOut targetAmountIn frontRunAmount : ℤ) (fee : ℚ) :
    Option (ℤ × ℤ) :=
  match swapStep reserveIn reserveOut frontRunAmount fee with
  | none => none
  | some (frontOut, rIn1, rOut1) =>
    match swapStep rIn1 rOut1 targetAmountIn fee with
    | none => none
    | some (_, rIn2, rOut2) =>
      match swapStep rOut2 rIn2 frontOut fee with
      | none => none
      | some (backOut, _, _) => some (frontOut, backOut)

/-- The builder described by the spec's words: run the chained three-step
simulation, then decide on the profit ratio. -/
def build_via_chain (pool_liquidity_in pool_liquidity_out target_amount_in : ℤ) :
    Option BuildOutcome :=
  let frontAmt := min (pyFloorDiv target_amount_in 4) (pyFloorDiv pool_liquidity_in 100)
  (chainedBracket pool_liquidity_in pool_liquidity_out target_amount_in frontAmt (1/400)).map
    (fun fb =>
      let pct : ℚ := if 0 < frontAmt then ((fb.2 - frontAmt : ℤ) : ℚ) / (frontAmt : ℚ) else 0
      if pct < 1/100 then .rejected
      else .built ⟨frontAmt, pyInt ((fb.1 : ℚ) * (98/100)), false⟩
                  ⟨fb.1, pyInt ((fb.2 : ℚ) * (98/100)), true⟩ pct)

/-- Shared refinement lemma: the source builder is exactly the spec's
chained three-step simulation followed by the profit-ratio gate. -/
theorem build_eq_chain (Lin Lout tgt : ℤ) :
    build_sandwich_transactions Lin Lout tgt = build_via_chain Lin Lout tgt := by
  unfold build_sandwich_transactions build_via_chain chainedBracket swapStep
  dsimp only
  cases h1 : calculate_swap_amounts Lin Lout
      (min (pyFloorDiv tgt 4) (pyFloorDiv Lin 100)) (1/400) with
  | none => rfl
  | some p1 =>
    obtain ⟨fOut, imp1⟩ := p1
    dsimp only [Option.map_some']
    cases h2 : calculate_swap_amounts (Lin + min (pyFloorDiv tgt 4) (pyFloorDiv Lin 100))
        (Lout - fOut) tgt (1/400) with
    | none => rfl
    | some p2 =>
      obtain ⟨tOut, imp2⟩ := p2
      dsimp only [Option.map_some']
      cases h3 : calculate_swap_amounts
          (Lout - fOut - tOut)
          (Lin + min (pyFloorDiv tgt 4) (pyFloorDiv Lin 100) + tgt) fOut (1/400) with
      | none => rfl
      | some p3 =>
        obtain ⟨bOut, imp3⟩ := p3
        dsimp only [Option.map_some']
        exact (apply_ite some _ _ _).symm

/-- C1. The bracket is simulated in exactly three chained steps: front-run
against the original reserves, the target trade against the once-updated
reserves, and a back-run sized as the front-run's acquired output against the
twice-updated reserves in the reverse direction. -/
theorem claim_C1_three_step_chain (Lin Lout tgt : ℤ) :
    build_sandwich_transactions Lin Lout tgt = build_via_chain Lin Lout tgt :=
  build_eq_chain Lin Lout tgt

/-- C7. The builder returns no transactions exactly when the chained
computation's profit ratio (profit over front-run amount) is below 1%, and
builds the two legs only when the ratio is at least 1%. -/
theorem claim_C7_profit_ratio_gate (Lin Lout tgt frontAmt frontOut backOut : ℤ) (ratio : ℚ)
    (hf : frontAmt = min (pyFloorDiv tgt 4) (pyFloorDiv Lin 100))
    (hchain : chainedBracket Lin Lout tgt frontAmt (1/400) = some (frontOut, backOut))
    (hr : ratio = if 0 < frontAmt then ((backOut - frontAmt : ℤ) : ℚ) / (frontAmt : ℚ) else 0) :
    (build_sandwich_transactions Lin Lout tgt = some BuildOutcome.rejected ↔ ratio < 1/100)
    ∧ (∀ f b p, build_sandwich_transactions Lin Lout tgt = some (BuildOutcome.built f b p)
        → 1/100 ≤ p ∧ p = ratio) := by
  subst hf hr
  rw [build_eq_chain]
  unfold build_via_chain
  dsimp only
  rw [hchain]
  dsimp only [Option.map_some']
  by_cases hlt : (if 0 < min (pyFloorDiv tgt 4) (pyFloorDiv Lin 100)
      then ((backOut - min (pyFloorDiv tgt 4) (pyFloorDiv Lin 100) : ℤ) : ℚ)
            / ((min (pyFloorDiv tgt 4) (pyFloorDiv Lin 100) : ℤ) : ℚ) else 0) < 1/100
  · rw [if_pos hlt]
    exact ⟨⟨fun _ => hlt, fun _ => rfl⟩, fun f b p h => by simp at h⟩
  · rw [if_neg hlt]
    refine ⟨⟨fun h => by simp at h, fun h => absurd h hlt⟩, fun f b p h => ?_⟩
    have hp : p = (if 0 < min (pyFloorDiv tgt 4) (pyFloorDiv Lin 100)
        then ((backOut - min (pyFloorDiv tgt 4) (pyFloorDiv Lin 100) : ℤ) : ℚ)
              / ((min (pyFloorDiv tgt 4) (pyFloorDiv Lin 100) : ℤ) : ℚ) else 0) := by
      injection h with h'
      cases h'.symm
      rfl
    exact ⟨hp ▸ le_of_not_lt hlt, hp⟩

theorem claim_C7_profit_ratio_gate_witness :
    chainedBracket 200 200 100 (min (pyFloorDiv 100 4) (pyFloorDiv 200 100)) (1/400)
        = some (0, 0) ∧
    (build_sandwich_transactions 200 200 100 = some BuildOutcome.rejected ↔
      (if (0:ℤ) < min (pyFloorDiv 100 4) (pyFloorDiv 200 100)
        then (((0:ℤ) - min (pyFloorDiv 100 4) (pyFloorDiv 200 100) : ℤ) : ℚ)
              / ((min (pyFloorDiv 100 4) (pyFloorDiv 200 100) : ℤ) : ℚ) else 0) < 1/100) := by
  have hch : chainedBracket 200 200 100 (min (pyFloorDiv 100 4) (pyFloorDiv 200 100)) (1/400)
      = some (0, 0) := by
    simp only [chainedBracket, swapStep, calculate_swap_amounts, pyFloorDiv, pyInt, pyAbs]
    norm_num
  exact ⟨hch,
    (claim_C7_profit_ratio_gate 200 200 100 (min (pyFloorDiv 100 4) (pyFloorDiv 200 100))
      0 0 _ rfl hch rfl).1⟩

/-! ## Sandwich engine (`src/core/sandwich_engine.py`)

Transaction-id strings (`"simulated_tx_{int(time.time())}"`,
`"sim_front_{...}"`, …) are modelled as opaque integers; `random.random()`
draws and `time.time()` readings are explicit arguments. -/

/-- Embedding of `PoolInfo` from `src/dex/raydium.py` (the fields the engine reads). -/
structure PoolInfo where
  liquidity : ℚ
  volume24h : ℚ
  price : ℚ
deriving Repr, DecidableEq

/-- The engine's `self.stats` dictionary. -/
structure SessionStats where
  opportunitiesDetected : ℕ
  sandwichesAttempted : ℕ
  successfulSandwiches : ℕ
  totalProfit : ℚ
  totalGasSpent : ℚ
deriving Repr, DecidableEq

/-- The `SandwichOpportunity` dataclass. `targetTransaction` carries the
`int(time.time())` (resp. parsed-signature) identifier. -/
structure SandwichOpportunity where
  poolInfo : Option PoolInfo
  targetTransaction : ℤ
  estimatedProfit : ℚ
  frontRunAmount : ℚ
  backRunAmount : ℚ
  gasCost : ℚ
  confidenceScore : ℚ
deriving Repr, DecidableEq

/-- The `SandwichResult` dataclass. -/
structure SandwichResult where
  opportunity : SandwichOpportunity
  frontRunSignature : Option ℤ
  backRunSignature : Option ℤ
  actualProfit : ℚ
  executionTime : ℚ
  success : Bool
  errorMessage : Option String
deriving Repr, DecidableEq

/-- The `PendingSwap` dataclass from `src/core/mempool_monitor.py`. -/
structure PendingSwap where
  signature : ℤ
  tokenIn : String
  tokenOut : String
  amountIn : ℚ
  estimatedPriceImpact : ℚ
  timestamp : ℚ
deriving Repr, DecidableEq

/-- Embedding of `SandwichEngine._simulate_opportunity`. `t` is the `time.time()` reading
used to mint the simulated transaction id. A zero-liquidity pool raises
`ZeroDivisionError` inside the `try`, which the `except` swallows, returning
`None`. -/
def simulate_opportunity (maxPositionSize minProfitThreshold : ℚ) (pool : PoolInfo) (t : ℤ) :
    Option SandwichOpportunity :=
  if pool.liquidity = 0 then none
  else
    let front_run_amount := min (pool.liquidity * (1/1000)) maxPositionSize
    let estimated_slippage := front_run_amount / pool.liquidity * (1/2)
    let estimated_profit := front_run_amount * estimated_slippage * (4/5)
    let gas_cost : ℚ := 1/1000
    let confidence_score :=
      min (pool.volume24h / pool.liquidity) (min (pool.liquidity / 100000) 1) * 100
    let net_profit := estimated_profit - gas_cost
    if net_profit > minProfitThreshold then
      some { poolInfo := some pool, targetTransaction := t,
             estimatedProfit := estimated_profit, frontRunAmount := front_run_amount,
             backRunAmount := front_run_amount, gasCost := gas_cost,
             confidenceScore := confidence_score }
    else none

/-- Embedding of `SandwichEngine._simulate_sandwich_execution`. `r` is the
`random.random()` success draw (success iff `r > 0.1`), `rProfit` the profit
variation draw. -/
def simulate_sandwich_execution (stats : SessionStats) (opp : SandwichOpportunity)
    (r rProfit execTime : ℚ) : SessionStats × SandwichResult :=
  if r > 1/10 then
    let actual_profit := opp.estimatedProfit * (4/5 + rProfit * (2/5))
    ({ stats with successfulSandwiches := stats.successfulSandwiches + 1,
                  totalProfit := stats.totalProfit + actual_profit,
                  sandwichesAttempted := stats.sandwichesAttempted + 1,
                  totalGasSpent := stats.totalGasSpent + opp.gasCost },
     { opportunity := opp, frontRunSignature := some 0, backRunSignature := some 1,
       actualProfit := actual_profit, executionTime := execTime, success := true,
       errorMessage := none })
  else
    ({ stats with sandwichesAttempted := stats.sandwichesAttempted + 1,
                  totalGasSpent := stats.totalGasSpent + opp.gasCost },
     { opportunity := opp, frontRunSignature := none, backRunSignature := none,
       actualProfit := -opp.gasCost, executionTime := execTime, success := false,
       errorMessage := some "Simulated failure" })

/-- Embedding of `SandwichEngine._execute_real_sandwich`: the unimplemented placeholder.
It builds a failure result and performs NO statistics update. -/
def execute_real_sandwich (stats : SessionStats) (opp : SandwichOpportunity) (execTime : ℚ) :
    SessionStats × SandwichResult :=
  (stats,
   { opportunity := opp, frontRunSignature := none, backRunSignature := none,
     actualProfit := 0, executionTime := execTime, success := false,
     errorMessage := some "Real execution not implemented yet" })

/-- Embedding of `SandwichEngine.execute_sandwich`: dispatch on `settings.DRY_RUN`. -/
def execute_sandwich (dryRun : Bool) (stats : SessionStats) (opp : SandwichOpportunity)
    (r rProfit execTime : ℚ) : SessionStats × SandwichResult :=
  if dryRun then simulate_sandwich_execution stats opp r rProfit execTime
  else execute_real_sandwich stats opp execTime

/-- Embedding of `SandwichEngine._execute_simulated_sandwich` (the mempool-callback
execution path). `r` is the success draw (success iff `r < 0.80`), `rProfit`
the profit-variation draw, `tFront`/`tBack` the minted signature ids. -/
def execute_simulated_sandwich (stats : SessionStats) (ps : PendingSwap)
    (expectedProfit : ℚ) (r rProfit : ℚ) (tFront tBack : ℤ) (execTime : ℚ) :
    SessionStats × SandwichResult :=
  let front_run_amount := ps.amountIn * (1/4)
  let back_run_amount := front_run_amount
  let gas_cost : ℚ := 1/1000
  let opportunity : SandwichOpportunity :=
    { poolInfo := none, targetTransaction := ps.signature,
      estimatedProfit := expectedProfit, frontRunAmount := front_run_amount,
      backRunAmount := back_run_amount, gasCost := gas_cost, confidenceScore := 75 }
  if r < 4/5 then
    let actual_profit := expectedProfit * (4/5 + rProfit * (2/5)) - gas_cost
    ({ stats with successfulSandwiches := stats.successfulSandwiches + 1,
                  totalProfit := stats.totalProfit + actual_profit,
                  sandwichesAttempted := stats.sandwichesAttempted + 1,
                  totalGasSpent := stats.totalGasSpent + gas_cost },
     { opportunity := opportunity, frontRunSignature := some tFront,
       backRunSignature := some tBack, actualProfit := actual_profit,
       executionTime := execTime, success := true, errorMessage := none })
  else
    ({ stats with sandwichesAttempted := stats.sandwichesAttempted + 1,
                  totalGasSpent := stats.totalGasSpent + gas_cost },
     { opportunity := opportunity, frontRunSignature := none, backRunSignature := none,
       actualProfit := -gas_cost, executionTime := execTime, success := false,
       errorMessage := some "Sandwich failed - target transaction reverted or price moved unfavorably" })

/-- C3 fails as stated: in real (non-DRY_RUN) mode, `execute_sandwich` goes
through the `_execute_real_sandwich` placeholder, which performs no
statistics update at all — the `attempted` counter stays at 0 instead of
becoming 1. -/
theorem claim_C3_counterexample :
    (execute_sandwich false ⟨0, 0, 0, 0, 0⟩ ⟨none, 0, 1/100, 1, 1, 1/1000, 75⟩
        (1/2) (1/2) 0).1.sandwichesAttempted
      ≠ (⟨0, 0, 0, 0, 0⟩ : SessionStats).sandwichesAttempted + 1 := by
  simp [execute_sandwich, execute_real_sandwich]

/-- C3 as amended: every simulated-mode execution (both the DRY_RUN
`execute_sandwich` path and the mempool `_execute_simulated_sandwich` path)
increments the `attempted` counter exactly once whatever the outcome, while
the real-mode placeholder path leaves the counters untouched. -/
theorem claim_C3_attempted_counter (stats : SessionStats) (opp : SandwichOpportunity)
    (ps : PendingSwap) (ep r rProfit execTime : ℚ) (tFront tBack : ℤ) :
    (execute_sandwich true stats opp r rProfit execTime).1.sandwichesAttempted
        = stats.sandwichesAttempted + 1
    ∧ (execute_simulated_sandwich stats ps ep r rProfit tFront tBack execTime).1.sandwichesAttempted
        = stats.sandwichesAttempted + 1
    ∧ (execute_sandwich false stats opp r rProfit execTime).1.sandwichesAttempted
        = stats.sandwichesAttempted := by
  refine ⟨?_, ?_, rfl⟩
  · show (simulate_sandwich_execution stats opp r rProfit execTime).1.sandwichesAttempted = _
    unfold simulate_sandwich_execution
    split_ifs <;> rfl
  · unfold execute_simulated_sandwich
    dsimp only
    split_ifs <;> rfl

/-- C4 fails as stated: the mempool execution path builds an Opportunity
whose front-run amount is 25% of the target's size, ignoring both the
liquidity fraction and the configured maximum position size. With the
default `maxPositionSize = 1.0` and a pending swap of 8 SOL, the front-run
amount is 2 > min(liquidity × 0.001, 1) for liquidity 1,000,000. -/
theorem claim_C4_counterexample :
    (execute_simulated_sandwich ⟨0, 0, 0, 0, 0⟩ ⟨7, "SOL", "USDC", 8, 1/50, 0⟩
        (2/25) (1/2) (1/2) 10 11 (1/10)).2.opportunity.frontRunAmount = 2
    ∧ ¬ ((2:ℚ) ≤ min ((1000000:ℚ) * (1/1000)) 1) := by
  constructor
  · simp only [execute_simulated_sandwich]
    norm_num
  · norm_num

/-- C4 as amended: Opportunities produced by the pool-scanning detection
path (`_simulate_opportunity`) do satisfy the sizing bound
`frontRunAmount ≤ min(pool.liquidity × 0.001, maxPositionSize)` (with
equality); the mempool execution path does not. -/
theorem claim_C4_sizing_bound (maxPos thr : ℚ) (pool : PoolInfo) (t : ℤ)
    (opp : SandwichOpportunity)
    (h : simulate_opportunity maxPos thr pool t = some opp) :
    opp.frontRunAmount ≤ min (pool.liquidity * (1/1000)) maxPos := by
  unfold simulate_opportunity at h
  dsimp only at h
  split at h
  · cases h
  · split at h
    · cases h
      exact le_refl _
    · cases h

theorem claim_C4_sizing_bound_witness :
    simulate_opportunity 100 (1/1000) ⟨10000, 10000, 1⟩ 0
        = some ⟨some ⟨10000, 10000, 1⟩, 0, 1/250, 10, 10, 1/1000, 10⟩
    ∧ (⟨some ⟨10000, 10000, 1⟩, 0, 1/250, 10, 10, 1/1000,
        10⟩ : SandwichOpportunity).frontRunAmount
        ≤ min ((10000:ℚ) * (1/1000)) 100 := by
  have h : simulate_opportunity 100 (1/1000) ⟨10000, 10000, 1⟩ 0
      = some ⟨some ⟨10000, 10000, 1⟩, 0, 1/250, 10, 10, 1/1000, 10⟩ := by
    simp only [simulate_opportunity]
    norm_num
  exact ⟨h, claim_C4_sizing_bound 100 (1/1000) ⟨10000, 10000, 1⟩ 0 _ h⟩

/-- C5 fails as stated: `_simulate_opportunity` reads the wall clock to mint
the Opportunity's target-transaction id, so two evaluations on the same pool
input at different times yield Opportunities that differ (in the
`targetTransaction` field). -/
theorem claim_C5_counterexample :
    simulate_opportunity 100 (1/1000) ⟨10000, 10000, 1⟩ 0
      ≠ simulate_opportunity 100 (1/1000) ⟨10000, 10000, 1⟩ 1 := by
  have h0 : simulate_opportunity 100 (1/1000) ⟨10000, 10000, 1⟩ 0
      = some ⟨some ⟨10000, 10000, 1⟩, 0, 1/250, 10, 10, 1/1000, 10⟩ := by
    simp only [simulate_opportunity]
    norm_num
  have h1 : simulate_opportunity 100 (1/1000) ⟨10000, 10000, 1⟩ 1
      = some ⟨some ⟨10000, 10000, 1⟩, 1, 1/250, 10, 10, 1/1000, 10⟩ := by
    simp only [simulate_opportunity]
    norm_num
  rw [h0, h1]
  simp

/-- Forgetting the clock-derived transaction id. -/
def eraseTargetTransaction (opp : SandwichOpportunity) : SandwichOpportunity :=
  { opp with targetTransaction := 0 }

/-- C5 as amended: apart from the clock-derived `targetTransaction` id, the
evaluation is a pure deterministic function of the pool input — two runs at
any two times agree on every other Opportunity field. -/
theorem claim_C5_deterministic_modulo_timestamp (maxPos thr : ℚ) (pool : PoolInfo) (t₁ t₂ : ℤ) :
    (simulate_opportunity maxPos thr pool t₁).map eraseTargetTransaction
      = (simulate_opportunity maxPos thr pool t₂).map eraseTargetTransaction := by
  unfold simulate_opportunity
  dsimp only
  split_ifs <;> rfl

/-! ## Pending-trade feed (`src/core/mempool_monitor.py`)

`start_monitoring` makes one WebSocket streaming attempt under
`asyncio.wait_for`; if the attempt raises or times out (in particular when
the subscription is never acknowledged within the bound), its exception
handler calls `_polling_monitoring` — once — and the polling loop runs until
`stop_monitoring`, never re-entering the WebSocket path. The session is
modelled as the sequence of modes it passes through plus the list of
candidates delivered to the callback. -/

inductive FeedMode where
  | streamingPrimary
  | pollingFallback
deriving Repr, DecidableEq

/-- Mode sequence of a `start_monitoring` session: the streaming attempt,
then — exactly when the attempt fails to acknowledge within the bound
(`streamAcks = false`) — one polling-fallback phase per poll cycle. -/
def start_monitoring_modes (streamAcks : Bool) (pollCycles : ℕ) : List FeedMode :=
  if streamAcks then [.streamingPrimary]
  else .streamingPrimary :: List.replicate pollCycles .pollingFallback

/-- Number of adjacent `a → b` mode transitions in a session trace. -/
def countTransitions (a b : FeedMode) : List FeedMode → ℕ
  | [] => 0
  | [_] => 0
  | x :: y :: rest => (if x = a ∧ y = b then 1 else 0) + countTransitions a b (y :: rest)

/-- Candidates delivered to the `onTrade` callback by `_polling_monitoring`
over its first `n` cycles (`cycle_count` runs 1, 2, …): the generator is
consulted on every second cycle (`cycle_count % 2 == 0`) and each produced
candidate is handed to the callback exactly once, in order. `gen` is
`_generate_simulated_opportunity` with its random draws made explicit per
cycle. -/
def polling_deliveries (gen : ℕ → Option PendingSwap) : ℕ → List PendingSwap
  | 0 => []
  | n+1 => polling_deliveries gen n ++
      (if (n+1) % 2 = 0 then (gen (n+1)).toList else [])

theorem countTransitions_nil (a b : FeedMode) : countTransitions a b [] = 0 := rfl

theorem countTransitions_single (a b x : FeedMode) : countTransitions a b [x] = 0 := rfl

theorem countTransitions_cons₂ (a b x y : FeedMode) (rest : List FeedMode) :
    countTransitions a b (x :: y :: rest) =
      (if x = a ∧ y = b then 1 else 0) + countTransitions a b (y :: rest) := rfl

/-- Inside a run of polling-fallback phases there is no transition other
than polling→polling. -/
theorem countTransitions_replicate_poll (a b : FeedMode)
    (h : ¬(FeedMode.pollingFallback = a ∧ FeedMode.pollingFallback = b)) :
    ∀ k, countTransitions a b (List.replicate k FeedMode.pollingFallback) = 0
  | 0 => rfl
  | 1 => rfl
  | (k+2) => by
      have ih := countTransitions_replicate_poll a b h (k+1)
      rw [List.replicate_succ, List.replicate_succ, countTransitions_cons₂, if_neg h,
        ← List.replicate_succ, ih]

/-- Every candidate the generator produces on its every-second-cycle
schedule within the session is delivered to the callback. -/
theorem mem_polling_deliveries (gen : ℕ → Option PendingSwap) (c : PendingSwap) :
    ∀ n k, k ≤ n → k % 2 = 0 → 0 < k → gen k = some c → c ∈ polling_deliveries gen n := by
  intro n
  induction n with
  | zero => intro k hk _ hpos _; omega
  | succ m ih =>
    intro k hk hmod hpos hgen
    rcases Nat.lt_or_ge k (m+1) with hlt | hge
    · exact List.mem_append_left _ (ih k (by omega) hmod hpos hgen)
    · have hk1 : k = m + 1 := by omega
      subst hk1
      apply List.mem_append_right
      rw [if_pos hmod, hgen]
      simp

/-- C9. When the streaming attempt never acknowledges within the bound, the
Feed transitions from streaming to the polling fallback exactly once, never
returns from polling to streaming within the session, and candidates keep
being delivered to `onTrade` from the fallback loop (every candidate the
generator yields on its schedule is delivered). -/
theorem claim_C9_fallback_transition (gen : ℕ → Option PendingSwap) (n : ℕ) (hn : 0 < n) :
    countTransitions .streamingPrimary .pollingFallback (start_monitoring_modes false n) = 1
    ∧ countTransitions .pollingFallback .streamingPrimary (start_monitoring_modes false n) = 0
    ∧ ∀ c k, k ≤ n → k % 2 = 0 → 0 < k → gen k = some c → c ∈ polling_deliveries gen n := by
  obtain ⟨m, rfl⟩ : ∃ m, n = m + 1 := ⟨n - 1, by omega⟩
  refine ⟨?_, ?_, fun c k hk hmod hpos hgen =>
    mem_polling_deliveries gen c (m+1) k hk hmod hpos hgen⟩
  · show countTransitions _ _
      (.streamingPrimary :: List.replicate (m+1) .pollingFallback) = 1
    rw [List.replicate_succ, countTransitions_cons₂, if_pos ⟨rfl, rfl⟩, ← List.replicate_succ,
      countTransitions_replicate_poll _ _ (by simp) (m+1)]
  · show countTransitions _ _
      (.streamingPrimary :: List.replicate (m+1) .pollingFallback) = 0
    rw [List.replicate_succ, countTransitions_cons₂, if_neg (by simp), ← List.replicate_succ,
      countTransitions_replicate_poll _ _ (by simp) (m+1)]

theorem claim_C9_fallback_transition_witness :
    0 < 4 ∧
    (countTransitions .streamingPrimary .pollingFallback (start_monitoring_modes false 4) = 1
    ∧ countTransitions .pollingFallback .streamingPrimary (start_monitoring_modes false 4) = 0
    ∧ ∀ c k, k ≤ 4 → k % 2 = 0 → 0 < k →
        (fun j => if j = 2 then some (⟨5, "SOL", "USDC", 3, 1/100, 0⟩ : PendingSwap) else none) k
          = some c
        → c ∈ polling_deliveries
            (fun j => if j = 2 then some (⟨5, "SOL", "USDC", 3, 1/100, 0⟩ : PendingSwap) else none) 4) :=
  ⟨by decide,
    claim_C9_fallback_transition
      (fun j => if j = 2 then some (⟨5, "SOL", "USDC", 3, 1/100, 0⟩ : PendingSwap) else none)
      4 (by decide)⟩

/-! ## RPC client (`src/core/rpc_client.py`) -/

/-- Embedding of `RPCClientWrapper.get_balance`: the RPC call's outcome (lamport balance
or raised error) is the explicit argument. The `except` clause maps any
error to `0.0`; otherwise lamports are converted to SOL. -/
def get_balance (rpcResponse : Except String ℤ) : ℚ :=
  match rpcResponse with
  | .error _ => 0
  | .ok lamports => (lamports : ℚ) / 1000000000

/-- C10. For any failure of the underlying balance query, `get_balance`
returns `0.0` rather than propagating the error — indistinguishable at the
interface from an account holding zero lamports. -/
theorem claim_C10_error_reads_as_zero (e : String) :
    get_balance (.error e) = 0 ∧ get_balance (.error e) = get_balance (.ok 0) := by
  refine ⟨rfl, ?_⟩
  show (0:ℚ) = ((0:ℤ) : ℚ) / 1000000000
  norm_num

end SandwichBot
